import Mathlib

/-!
Verification of `src/server.py` (bilko-flow): a static file server that
subclasses the Python standard library's `SimpleHTTPRequestHandler`,
overriding `end_headers` to inject a `Cache-Control` header, and serves
on `("0.0.0.0", 5000)`.

The repository's own code is seven lines; the request/response machinery
it hooks into is the standard library's `http.server` (the external
facility the spec defers to).  We embed:

  * the header machinery of `http.server.BaseHTTPRequestHandler`
    (`send_header`, `end_headers`, `flush_headers`), faithful to the
    library source, including its two load-bearing details: every
    header-sending operation is a no-op when the request version is
    `HTTP/0.9`, and `send_header` creates the `_headers_buffer`
    attribute when it is absent while the base `end_headers` reads the
    attribute unguarded (an `AttributeError` when absent);
  * the file-serving policy (status, base headers, body per path
    resolution), modelled from the spec, which scopes the policy to the
    underlying facility;
  * the subclass override and the startup line, from `src/server.py`.
-/

/-- A single response header field: a name and a value. -/
structure Header where
  name : String
  value : String
deriving DecidableEq, Repr

/-- The header field injected by `src/server.py` line 5:
`self.send_header("Cache-Control", "no-cache, no-store, must-revalidate")`. -/
def cacheControlField : Header :=
  ⟨"Cache-Control", "no-cache, no-store, must-revalidate"⟩

/-- Per-response output state of a `BaseHTTPRequestHandler`.
`headersBuffer = none` models a handler object on which the
`_headers_buffer` attribute does not (yet) exist — the degenerate
state the spec's safety clause talks about; `some buf` models the
attribute holding the buffered, not yet transmitted, header fields.
`wireHeaders` is the list of header fields already written to the
connection, and `wireBlankSent` records whether the blank line ending
the header block has been written. -/
structure HandlerState where
  requestVersion : String
  headersBuffer : Option (List Header)
  wireHeaders : List Header
  wireBlankSent : Bool
deriving DecidableEq, Repr

/-- `BaseHTTPRequestHandler.send_header` (stdlib `http/server.py`):
when the request version is `HTTP/0.9` it does nothing; otherwise it
creates `_headers_buffer` if absent (`hasattr` guard, modelled by
`Option.getD`) and appends the field to it.  Nothing is transmitted. -/
def send_header (s : HandlerState) (n v : String) : HandlerState :=
  if s.requestVersion = "HTTP/0.9" then s
  else { s with headersBuffer := some (s.headersBuffer.getD [] ++ [⟨n, v⟩]) }

/-- `BaseHTTPRequestHandler.flush_headers`: if the buffer attribute
exists, write its contents to the connection and reset it to `[]`. -/
def flush_headers (s : HandlerState) : HandlerState :=
  match s.headersBuffer with
  | none => s
  | some buf =>
      { s with wireHeaders := s.wireHeaders ++ buf, headersBuffer := some [] }

/-- `BaseHTTPRequestHandler.end_headers`: a no-op for `HTTP/0.9`;
otherwise it appends the blank line to `_headers_buffer` — an unguarded
attribute read, raising `AttributeError` when the attribute is absent —
and flushes the buffer to the connection. -/
def end_headers_base (s : HandlerState) : Except String HandlerState :=
  if s.requestVersion = "HTTP/0.9" then Except.ok s
  else
    match s.headersBuffer with
    | none => Except.error "AttributeError: _headers_buffer"
    | some _ => Except.ok (flush_headers { s with wireBlankSent := true })

/-- `NoCacheHandler.end_headers` from `src/server.py` lines 4-6:
`self.send_header("Cache-Control", "no-cache, no-store, must-revalidate")`
followed by `super().end_headers()`. -/
def NoCacheHandler_end_headers (s : HandlerState) : Except String HandlerState :=
  end_headers_base
    (send_header s "Cache-Control" "no-cache, no-store, must-revalidate")

/-- A filesystem entry: a regular file with contents and a readability
flag, or a directory with its generated listing markup. -/
inductive FsEntry where
  | file (contents : String) (readable : Bool)
  | dir (listing : String)
deriving DecidableEq, Repr

/-- The server root's filesystem tree, as path-to-entry bindings. -/
abbrev FileSystem := List (String × FsEntry)

/-- Look a request path up in the server root. -/
def lookupPath (fs : FileSystem) (p : String) : Option FsEntry :=
  fs.lookup p

/-- Modelled from the spec: MIME-type detection is explicitly out of the
spec's scope, so a representative guess function stands in for the
underlying facility's. -/
def guess_type (p : String) : String :=
  if p.endsWith ".html" then "text/html" else "application/octet-stream"

/-- Modelled from the spec: body of the underlying facility's `404`
error response (its exact markup is unspecified). -/
def body_404 : String := "404 Not Found"

/-- Modelled from the spec: body of the underlying facility's `403`
error response (its exact markup is unspecified). -/
def body_403 : String := "403 Forbidden"

/-- Modelled from the spec: header fields accompanying an error
response of the underlying facility. -/
def error_fields (body : String) : List Header :=
  [⟨"Content-type", "text/html;charset=utf-8"⟩,
   ⟨"Connection", "close"⟩,
   ⟨"Content-Length", toString body.length⟩]

/-- What the base file-serving policy decides for one request: the
status code, the base header fields it buffers, and the body. -/
structure ServeOutcome where
  status : Nat
  baseFields : List Header
  body : String
deriving DecidableEq, Repr

/-- Modelled from the spec: the default file-serving policy of the
underlying facility — `200` with the file's contents for an existing
readable file, `403` for a forbidden one, `200` with generated markup
for a directory, `404` when the path resolves to nothing. -/
def resolve (fs : FileSystem) (p : String) : ServeOutcome :=
  match lookupPath fs p with
  | some (FsEntry.file c true) =>
      ⟨200, [⟨"Content-type", guess_type p⟩,
             ⟨"Content-Length", toString c.length⟩], c⟩
  | some (FsEntry.file _ false) =>
      ⟨403, error_fields body_403, body_403⟩
  | some (FsEntry.dir l) =>
      ⟨200, [⟨"Content-type", "text/html;charset=utf-8"⟩,
             ⟨"Content-Length", toString l.length⟩], l⟩
  | none => ⟨404, error_fields body_404, body_404⟩

/-- One parsed HTTP request: its path and its request version string. -/
structure Request where
  path : String
  version : String
deriving DecidableEq, Repr

/-- A fresh handler's per-response state: no `_headers_buffer`
attribute yet, nothing transmitted. -/
def initialState (version : String) : HandlerState :=
  ⟨version, none, [], false⟩

/-- Buffer a list of header fields through successive `send_header`
calls, as the base handler does while building a response. -/
def bufferFields (s : HandlerState) (hs : List Header) : HandlerState :=
  hs.foldl (fun t h => send_header t h.name h.value) s

/-- The handler state just before `end_headers` is invoked: the base
policy's status, headers and body are decided and the header fields are
buffered, but nothing has been flushed to the connection. -/
def stateBeforeEnd (fs : FileSystem) (r : Request) : HandlerState :=
  bufferFields (initialState r.version) (resolve fs r.path).baseFields

/-- What the client observes for one request: the status the policy
decided, the header fields actually transmitted, and the body. -/
structure WireResponse where
  status : Nat
  headers : List Header
  body : String
deriving DecidableEq, Repr

/-- Run one request through the response pipeline with a given
finalize-headers hook. -/
def run_with (hook : HandlerState → Except String HandlerState)
    (fs : FileSystem) (r : Request) : Except String WireResponse :=
  Except.map
    (fun s => ⟨(resolve fs r.path).status, s.wireHeaders, (resolve fs r.path).body⟩)
    (hook (stateBeforeEnd fs r))

/-- The response of `NoCacheHandler` (the overridden `end_headers`). -/
def NoCacheHandler_handle (fs : FileSystem) (r : Request) :
    Except String WireResponse :=
  run_with NoCacheHandler_end_headers fs r

/-- The response the unmodified `SimpleHTTPRequestHandler` would
produce for the same request and filesystem state. -/
def base_handle (fs : FileSystem) (r : Request) : Except String WireResponse :=
  run_with end_headers_base fs r

/-- `HTTPServer(..., NoCacheHandler).serve_forever()` from
`src/server.py` line 8: the blocking loop handles requests one after
the other, each with a freshly constructed handler — no state carries
over from one request to the next. -/
def serve_requests (fs : FileSystem) (reqs : List Request) :
    List (Except String WireResponse) :=
  reqs.map (fun r => NoCacheHandler_handle fs r)

/-- The values of all header fields with a given name, in response
order. -/
def headerValues (r : WireResponse) (n : String) : List String :=
  (r.headers.filter (fun h => h.name == n)).map Header.value

/-- The startup configuration of the server process. -/
structure ServerConfig where
  host : String
  port : Nat
  rootDir : String
deriving DecidableEq, Repr

/-- From `src/server.py` line 8:
`HTTPServer(("0.0.0.0", 5000), NoCacheHandler).serve_forever()`.
The script reads neither `sys.argv` nor the environment; the serving
root is the process's current working directory (the
`SimpleHTTPRequestHandler` default). -/
def startup_config (cwd : String) (argv : List String)
    (env : List (String × String)) : ServerConfig :=
  ⟨"0.0.0.0", 5000, cwd⟩

/-- The concrete server root of the spec's scenario:
`index.html` containing `<h1>hi</h1>`. -/
def fs0 : FileSystem := [("/index.html", FsEntry.file "<h1>hi</h1>" true)]

/-- The handler state right after the override has buffered its
`Cache-Control` field, i.e. after line 5 of `src/server.py` and before
the delegated `super().end_headers()` transmits anything. -/
def after_injection (fs : FileSystem) (r : Request) : HandlerState :=
  send_header (stateBeforeEnd fs r) "Cache-Control"
    "no-cache, no-store, must-revalidate"

/-! ### Pipeline lemmas -/

theorem send_header_ne09 (s : HandlerState) (n v : String)
    (hv : s.requestVersion ≠ "HTTP/0.9") :
    send_header s n v =
      { s with headersBuffer := some (s.headersBuffer.getD [] ++ [⟨n, v⟩]) } := by
  simp [send_header, hv]

theorem send_header_09 (s : HandlerState) (n v : String)
    (hv : s.requestVersion = "HTTP/0.9") :
    send_header s n v = s := by
  simp [send_header, hv]

theorem bufferFields_some (hs : List Header) :
    ∀ (s : HandlerState) (b : List Header),
      s.requestVersion ≠ "HTTP/0.9" → s.headersBuffer = some b →
      bufferFields s hs =
        ⟨s.requestVersion, some (b ++ hs), s.wireHeaders, s.wireBlankSent⟩ := by
  induction hs with
  | nil =>
      intro s b hv hb
      obtain ⟨v, buf, w, bl⟩ := s
      simp only at hb
      simp [bufferFields, hb]
  | cons f t ih =>
      intro s b hv hb
      have hstep : bufferFields s (f :: t) =
          bufferFields (send_header s f.name f.value) t := rfl
      rw [hstep, send_header_ne09 s f.name f.value hv, hb]
      simp only [Option.getD_some]
      have h2 : bufferFields
          ⟨s.requestVersion, some (b ++ [(⟨f.name, f.value⟩ : Header)]),
            s.wireHeaders, s.wireBlankSent⟩ t =
          ⟨s.requestVersion, some ((b ++ [(⟨f.name, f.value⟩ : Header)]) ++ t),
            s.wireHeaders, s.wireBlankSent⟩ :=
        ih _ _ hv rfl
      rw [h2]
      simp

theorem bufferFields_09 (hs : List Header) :
    ∀ (s : HandlerState), s.requestVersion = "HTTP/0.9" →
      bufferFields s hs = s := by
  induction hs with
  | nil => intro s hv; rfl
  | cons f t ih =>
      intro s hv
      have hstep : bufferFields s (f :: t) =
          bufferFields (send_header s f.name f.value) t := rfl
      rw [hstep, send_header_09 s f.name f.value hv]
      exact ih s hv

theorem resolve_fields_ne_nil (fs : FileSystem) (p : String) :
    (resolve fs p).baseFields ≠ [] := by
  unfold resolve
  cases h : lookupPath fs p with
  | none => simp [error_fields]
  | some e =>
      cases e with
      | file c r => cases r <;> simp [error_fields]
      | dir l => simp

theorem resolve_fields_no_cc (fs : FileSystem) (p : String) :
    (resolve fs p).baseFields.filter (fun h => h.name == "Cache-Control") = [] := by
  unfold resolve
  cases h : lookupPath fs p with
  | none => simp [error_fields, List.filter]
  | some e =>
      cases e with
      | file c r => cases r <;> simp [error_fields, List.filter]
      | dir l => simp [List.filter]

theorem stateBeforeEnd_ne09 (fs : FileSystem) (r : Request)
    (hv : r.version ≠ "HTTP/0.9") :
    stateBeforeEnd fs r =
      ⟨r.version, some (resolve fs r.path).baseFields, [], false⟩ := by
  unfold stateBeforeEnd
  cases h : (resolve fs r.path).baseFields with
  | nil => exact absurd h (resolve_fields_ne_nil fs r.path)
  | cons f t =>
      have hstep : bufferFields (initialState r.version) (f :: t) =
          bufferFields (send_header (initialState r.version) f.name f.value) t := rfl
      rw [hstep, send_header_ne09 _ f.name f.value hv]
      rw [bufferFields_some t _ [f] hv rfl]
      simp [initialState]

theorem stateBeforeEnd_09 (fs : FileSystem) (r : Request)
    (hv : r.version = "HTTP/0.9") :
    stateBeforeEnd fs r = ⟨r.version, none, [], false⟩ := by
  unfold stateBeforeEnd
  rw [bufferFields_09 _ _ hv]
  rfl

theorem nch_end_ne09 (s : HandlerState) (hv : s.requestVersion ≠ "HTTP/0.9") :
    NoCacheHandler_end_headers s =
      Except.ok ⟨s.requestVersion, some [],
        s.wireHeaders ++ (s.headersBuffer.getD [] ++ [cacheControlField]), true⟩ := by
  unfold NoCacheHandler_end_headers
  rw [send_header_ne09 s _ _ hv]
  simp [end_headers_base, flush_headers, hv, cacheControlField]

theorem base_end_some (s : HandlerState) (b : List Header)
    (hv : s.requestVersion ≠ "HTTP/0.9") (hb : s.headersBuffer = some b) :
    end_headers_base s =
      Except.ok ⟨s.requestVersion, some [], s.wireHeaders ++ b, true⟩ := by
  simp [end_headers_base, hv, hb, flush_headers]

theorem nch_end_09 (s : HandlerState) (hv : s.requestVersion = "HTTP/0.9") :
    NoCacheHandler_end_headers s = Except.ok s := by
  unfold NoCacheHandler_end_headers
  rw [send_header_09 s _ _ hv]
  simp [end_headers_base, hv]

theorem base_end_09 (s : HandlerState) (hv : s.requestVersion = "HTTP/0.9") :
    end_headers_base s = Except.ok s := by
  simp [end_headers_base, hv]

theorem handle_ne09 (fs : FileSystem) (r : Request)
    (hv : r.version ≠ "HTTP/0.9") :
    NoCacheHandler_handle fs r =
      Except.ok ⟨(resolve fs r.path).status,
        (resolve fs r.path).baseFields ++ [cacheControlField],
        (resolve fs r.path).body⟩ := by
  unfold NoCacheHandler_handle run_with
  rw [stateBeforeEnd_ne09 fs r hv, nch_end_ne09 _ hv]
  simp [Except.map]

theorem base_handle_ne09 (fs : FileSystem) (r : Request)
    (hv : r.version ≠ "HTTP/0.9") :
    base_handle fs r =
      Except.ok ⟨(resolve fs r.path).status,
        (resolve fs r.path).baseFields, (resolve fs r.path).body⟩ := by
  unfold base_handle run_with
  rw [stateBeforeEnd_ne09 fs r hv,
    base_end_some _ (resolve fs r.path).baseFields hv rfl]
  simp [Except.map]

theorem handle_09 (fs : FileSystem) (r : Request)
    (hv : r.version = "HTTP/0.9") :
    NoCacheHandler_handle fs r =
      Except.ok ⟨(resolve fs r.path).status, [], (resolve fs r.path).body⟩ := by
  unfold NoCacheHandler_handle run_with
  rw [stateBeforeEnd_09 fs r hv, nch_end_09 _ hv]
  simp [Except.map]

theorem base_handle_09 (fs : FileSystem) (r : Request)
    (hv : r.version = "HTTP/0.9") :
    base_handle fs r =
      Except.ok ⟨(resolve fs r.path).status, [], (resolve fs r.path).body⟩ := by
  unfold base_handle run_with
  rw [stateBeforeEnd_09 fs r hv, base_end_09 _ hv]
  simp [Except.map]

theorem cc_filter (fs : FileSystem) (p : String) :
    ((resolve fs p).baseFields ++ [cacheControlField]).filter
      (fun h => h.name == "Cache-Control") = [cacheControlField] := by
  rw [List.filter_append, resolve_fields_no_cc]
  simp [cacheControlField]

theorem handle_headerValues (fs : FileSystem) (r : Request) :
    headerValues
      ⟨(resolve fs r.path).status,
        (resolve fs r.path).baseFields ++ [cacheControlField],
        (resolve fs r.path).body⟩ "Cache-Control" =
      ["no-cache, no-store, must-revalidate"] := by
  show (((resolve fs r.path).baseFields ++ [cacheControlField]).filter
      (fun h => h.name == "Cache-Control")).map Header.value =
    ["no-cache, no-store, must-revalidate"]
  rw [cc_filter]
  rfl

/-- The base `end_headers` alone does fail on the degenerate state the
spec describes (non-0.9 response object without a headers buffer): the
safety of the override is due to its `send_header` call running first. -/
theorem base_end_headers_raises_on_degenerate :
    end_headers_base ⟨"HTTP/1.1", none, [], false⟩ =
      Except.error "AttributeError: _headers_buffer" := rfl

/-! ### Claims -/

/-- Claim C1, amended: for every request that elicits a header block
(request version other than `HTTP/0.9`), whatever the status code, the
response carries a `Cache-Control` header whose value equals exactly
`no-cache, no-store, must-revalidate` — and it is the only
`Cache-Control` field of the response. -/
theorem C1_every_header_block_response_has_no_cache
    (fs : FileSystem) (r : Request) (hv : r.version ≠ "HTTP/0.9") :
    ∃ resp, NoCacheHandler_handle fs r = Except.ok resp ∧
      headerValues resp "Cache-Control" =
        ["no-cache, no-store, must-revalidate"] :=
  ⟨_, handle_ne09 fs r hv, handle_headerValues fs r⟩

/-- Claim C1, witness: the `HTTP/1.1` GET of the spec scenario. -/
theorem C1_every_header_block_response_has_no_cache_witness :
    ("HTTP/1.1" : String) ≠ "HTTP/0.9" ∧
    (∃ resp,
      NoCacheHandler_handle fs0 ⟨"/index.html", "HTTP/1.1"⟩ = Except.ok resp ∧
      headerValues resp "Cache-Control" =
        ["no-cache, no-store, must-revalidate"]) :=
  ⟨by decide,
   C1_every_header_block_response_has_no_cache fs0 ⟨"/index.html", "HTTP/1.1"⟩
     (by decide)⟩

/-- Claim C1, counterexample: an `HTTP/0.9` request is handled by the
server, yet its response carries no `Cache-Control` header at all, so
the invariant does not hold for every handled request. -/
theorem C1_counterexample :
    NoCacheHandler_handle fs0 ⟨"/index.html", "HTTP/0.9"⟩ =
      Except.ok ⟨200, [], "<h1>hi</h1>"⟩ ∧
    headerValues ⟨200, [], "<h1>hi</h1>"⟩ "Cache-Control" = [] ∧
    (([] : List String) ≠ ["no-cache, no-store, must-revalidate"]) :=
  ⟨rfl, rfl, by decide⟩

/-- Claim C2, amended: for every request with a header block (version
other than `HTTP/0.9`) whose path resolves to an existing readable
file, the server returns status `200` with a body identical to the
file contents, and the response carries the no-cache header. -/
theorem C2_existing_file_served_byte_identical
    (fs : FileSystem) (r : Request) (c : String)
    (hv : r.version ≠ "HTTP/0.9")
    (hf : lookupPath fs r.path = some (FsEntry.file c true)) :
    ∃ resp, NoCacheHandler_handle fs r = Except.ok resp ∧
      resp.status = 200 ∧ resp.body = c ∧
      headerValues resp "Cache-Control" =
        ["no-cache, no-store, must-revalidate"] := by
  have hres : resolve fs r.path =
      ⟨200, [⟨"Content-type", guess_type r.path⟩,
             ⟨"Content-Length", toString c.length⟩], c⟩ := by
    unfold resolve
    rw [hf]
  refine ⟨_, handle_ne09 fs r hv, ?_, ?_, handle_headerValues fs r⟩
  · simp [hres]
  · simp [hres]

/-- Claim C2, witness: the spec scenario, `GET /index.html` over
`HTTP/1.1` against a root holding `index.html` = `<h1>hi</h1>`. -/
theorem C2_existing_file_served_byte_identical_witness :
    ("HTTP/1.1" : String) ≠ "HTTP/0.9" ∧
    lookupPath fs0 "/index.html" = some (FsEntry.file "<h1>hi</h1>" true) ∧
    (∃ resp,
      NoCacheHandler_handle fs0 ⟨"/index.html", "HTTP/1.1"⟩ = Except.ok resp ∧
      resp.status = 200 ∧ resp.body = "<h1>hi</h1>" ∧
      headerValues resp "Cache-Control" =
        ["no-cache, no-store, must-revalidate"]) :=
  ⟨by decide, rfl,
   C2_existing_file_served_byte_identical fs0 ⟨"/index.html", "HTTP/1.1"⟩
     "<h1>hi</h1>" (by decide) rfl⟩

/-- Claim C2, counterexample: an `HTTP/0.9` GET of the existing file
gets the right status and byte-identical body, but the response
carries no `Cache-Control` header, so the claim fails as stated. -/
theorem C2_counterexample :
    NoCacheHandler_handle fs0 ⟨"/index.html", "HTTP/0.9"⟩ =
      Except.ok ⟨200, [], "<h1>hi</h1>"⟩ ∧
    cacheControlField ∉
      (⟨200, ([] : List Header), "<h1>hi</h1>"⟩ : WireResponse).headers :=
  ⟨rfl, by decide⟩

/-- Claim C3, amended: for every request with a header block (version
other than `HTTP/0.9`) whose path resolves to nothing, the server
returns status `404` and the error response still carries the
no-cache header. -/
theorem C3_missing_path_is_404_with_no_cache
    (fs : FileSystem) (r : Request)
    (hv : r.version ≠ "HTTP/0.9")
    (hf : lookupPath fs r.path = none) :
    ∃ resp, NoCacheHandler_handle fs r = Except.ok resp ∧
      resp.status = 404 ∧
      headerValues resp "Cache-Control" =
        ["no-cache, no-store, must-revalidate"] := by
  have hres : resolve fs r.path = ⟨404, error_fields body_404, body_404⟩ := by
    unfold resolve
    rw [hf]
  refine ⟨_, handle_ne09 fs r hv, ?_, handle_headerValues fs r⟩
  simp [hres]

/-- Claim C3, witness: `GET /missing.txt` over `HTTP/1.0` against the
spec scenario root. -/
theorem C3_missing_path_is_404_with_no_cache_witness :
    ("HTTP/1.0" : String) ≠ "HTTP/0.9" ∧
    lookupPath fs0 "/missing.txt" = none ∧
    (∃ resp,
      NoCacheHandler_handle fs0 ⟨"/missing.txt", "HTTP/1.0"⟩ = Except.ok resp ∧
      resp.status = 404 ∧
      headerValues resp "Cache-Control" =
        ["no-cache, no-store, must-revalidate"]) :=
  ⟨by decide, rfl,
   C3_missing_path_is_404_with_no_cache fs0 ⟨"/missing.txt", "HTTP/1.0"⟩
     (by decide) rfl⟩

/-- Claim C3, counterexample: an `HTTP/0.9` request for a nonexistent
path yields the `404` outcome but a response with no `Cache-Control`
header, so the claim fails as stated. -/
theorem C3_counterexample :
    NoCacheHandler_handle fs0 ⟨"/missing.txt", "HTTP/0.9"⟩ =
      Except.ok ⟨404, [], body_404⟩ ∧
    headerValues ⟨404, [], body_404⟩ "Cache-Control" = [] ∧
    (([] : List String) ≠ ["no-cache, no-store, must-revalidate"]) :=
  ⟨rfl, rfl, by decide⟩

/-- Claim C4, amended: on every response that carries a header block
(version other than `HTTP/0.9`), the override adds exactly one header
field — `Cache-Control: no-cache, no-store, must-revalidate` — and no
`Pragma` or `Expires`; every other transmitted header is exactly what
the base `end_headers` would transmit.  (For `HTTP/0.9` the override
adds no field, since header sending is disabled.) -/
theorem C4_override_adds_exactly_one_field
    (s : HandlerState) (b : List Header)
    (hv : s.requestVersion ≠ "HTTP/0.9")
    (hb : s.headersBuffer = some b) :
    ∃ s2 sb, NoCacheHandler_end_headers s = Except.ok s2 ∧
      end_headers_base s = Except.ok sb ∧
      s2.wireHeaders = sb.wireHeaders ++ [cacheControlField] ∧
      cacheControlField.name = "Cache-Control" ∧
      cacheControlField.name ≠ "Pragma" ∧
      cacheControlField.name ≠ "Expires" := by
  refine ⟨_, _, nch_end_ne09 s hv, base_end_some s b hv hb, ?_,
    rfl, by decide, by decide⟩
  rw [hb]
  simp

/-- Claim C4, witness: a state holding one buffered base field. -/
theorem C4_override_adds_exactly_one_field_witness :
    (("HTTP/1.1" : String) ≠ "HTTP/0.9") ∧
    (∃ s2 sb,
      NoCacheHandler_end_headers
        ⟨"HTTP/1.1", some [⟨"Content-type", "text/html"⟩], [], false⟩ =
        Except.ok s2 ∧
      end_headers_base
        ⟨"HTTP/1.1", some [⟨"Content-type", "text/html"⟩], [], false⟩ =
        Except.ok sb ∧
      s2.wireHeaders = sb.wireHeaders ++ [cacheControlField] ∧
      cacheControlField.name = "Cache-Control" ∧
      cacheControlField.name ≠ "Pragma" ∧
      cacheControlField.name ≠ "Expires") :=
  ⟨by decide,
   C4_override_adds_exactly_one_field
     ⟨"HTTP/1.1", some [⟨"Content-type", "text/html"⟩], [], false⟩
     [⟨"Content-type", "text/html"⟩] (by decide) rfl⟩

/-- Claim C4, counterexample: on an `HTTP/0.9` response the override
adds no header field at all (zero, not exactly one): the state is
returned unchanged, nothing reaches the wire. -/
theorem C4_counterexample :
    NoCacheHandler_end_headers ⟨"HTTP/0.9", some [], [], false⟩ =
      Except.ok ⟨"HTTP/0.9", some [], [], false⟩ ∧
    (([] : List Header) ≠ [cacheControlField]) :=
  ⟨rfl, by decide⟩

/-- Claim C5: the `Cache-Control` field is injected after the base
policy has determined status, base headers and body, and strictly
before any header bytes reach the connection: nothing is on the wire
before (or at) the injection point, and every header field the client
observes is flushed from the post-injection buffer, while status and
body are exactly what the policy decided beforehand. -/
theorem C5_injection_before_any_transmission
    (fs : FileSystem) (r : Request) :
    (stateBeforeEnd fs r).wireHeaders = [] ∧
    (after_injection fs r).wireHeaders = [] ∧
    NoCacheHandler_handle fs r =
      Except.ok ⟨(resolve fs r.path).status,
        (after_injection fs r).headersBuffer.getD [],
        (resolve fs r.path).body⟩ ∧
    (r.version ≠ "HTTP/0.9" →
      cacheControlField ∈ (after_injection fs r).headersBuffer.getD []) := by
  by_cases hv : r.version = "HTTP/0.9"
  · have hst := stateBeforeEnd_09 fs r hv
    have hai : after_injection fs r = ⟨r.version, none, [], false⟩ := by
      unfold after_injection
      rw [hst, send_header_09 _ _ _ hv]
    refine ⟨by rw [hst], by rw [hai], ?_, fun h => absurd hv h⟩
    rw [handle_09 fs r hv, hai]
    rfl
  · have hst := stateBeforeEnd_ne09 fs r hv
    have hai : after_injection fs r =
        ⟨r.version, some ((resolve fs r.path).baseFields ++ [cacheControlField]),
          [], false⟩ := by
      unfold after_injection
      rw [hst, send_header_ne09 _ _ _ hv]
      simp [cacheControlField]
    refine ⟨by rw [hst], by rw [hai], ?_, fun _ => ?_⟩
    · rw [handle_ne09 fs r hv, hai]
      rfl
    · rw [hai]
      simp

/-- Claim C5, witness: the spec scenario request, showing the wire is
empty before injection and the injected field sits in the buffer that
is then flushed. -/
theorem C5_injection_before_any_transmission_witness :
    (stateBeforeEnd fs0 ⟨"/index.html", "HTTP/1.1"⟩).wireHeaders = [] ∧
    cacheControlField ∈
      (after_injection fs0 ⟨"/index.html", "HTTP/1.1"⟩).headersBuffer.getD [] :=
  ⟨(C5_injection_before_any_transmission fs0 ⟨"/index.html", "HTTP/1.1"⟩).1,
   (C5_injection_before_any_transmission fs0
     ⟨"/index.html", "HTTP/1.1"⟩).2.2.2 (by decide)⟩

/-- Claim C6: the overridden `end_headers` never fails, for any
response state — including the degenerate one where the headers buffer
attribute does not exist (its leading `send_header` call creates it,
whereas the base `end_headers` alone would fail there) — and the
override intercepts no error: the status and body of every response
are exactly those of the unmodified base handler. -/
theorem C6_override_never_raises_and_intercepts_nothing :
    (∀ s : HandlerState, ∃ s2, NoCacheHandler_end_headers s = Except.ok s2) ∧
    (∀ (fs : FileSystem) (r : Request), ∃ a b,
      NoCacheHandler_handle fs r = Except.ok a ∧
      base_handle fs r = Except.ok b ∧
      a.status = b.status ∧ a.body = b.body) := by
  constructor
  · intro s
    by_cases hv : s.requestVersion = "HTTP/0.9"
    · exact ⟨s, nch_end_09 s hv⟩
    · exact ⟨_, nch_end_ne09 s hv⟩
  · intro fs r
    by_cases hv : r.version = "HTTP/0.9"
    · exact ⟨_, _, handle_09 fs r hv, base_handle_09 fs r hv, rfl, rfl⟩
    · exact ⟨_, _, handle_ne09 fs r hv, base_handle_ne09 fs r hv, rfl, rfl⟩

/-- Claim C7, amended: the serve loop hands every request a freshly
constructed handler, so the response to a request is independent of
any requests served before it — issuing the same request twice yields
two equal, independently produced responses — and whenever the request
carries a header block (version other than `HTTP/0.9`) each of the two
responses satisfies the no-cache header invariant. -/
theorem C7_repeated_requests_independent
    (fs : FileSystem) (pre : List Request) (r : Request) :
    serve_requests fs (pre ++ [r, r]) =
      serve_requests fs pre ++
        [NoCacheHandler_handle fs r, NoCacheHandler_handle fs r] ∧
    (r.version ≠ "HTTP/0.9" → ∃ resp,
      NoCacheHandler_handle fs r = Except.ok resp ∧
      headerValues resp "Cache-Control" =
        ["no-cache, no-store, must-revalidate"]) := by
  constructor
  · simp [serve_requests]
  · intro hv
    exact ⟨_, handle_ne09 fs r hv, handle_headerValues fs r⟩

/-- Claim C7, witness: the same `HTTP/1.1` request issued twice. -/
theorem C7_repeated_requests_independent_witness :
    serve_requests fs0
        ([] ++ [⟨"/index.html", "HTTP/1.1"⟩, ⟨"/index.html", "HTTP/1.1"⟩]) =
      serve_requests fs0 [] ++
        [NoCacheHandler_handle fs0 ⟨"/index.html", "HTTP/1.1"⟩,
         NoCacheHandler_handle fs0 ⟨"/index.html", "HTTP/1.1"⟩] ∧
    (∃ resp,
      NoCacheHandler_handle fs0 ⟨"/index.html", "HTTP/1.1"⟩ = Except.ok resp ∧
      headerValues resp "Cache-Control" =
        ["no-cache, no-store, must-revalidate"]) :=
  ⟨(C7_repeated_requests_independent fs0 [] ⟨"/index.html", "HTTP/1.1"⟩).1,
   (C7_repeated_requests_independent fs0 [] ⟨"/index.html", "HTTP/1.1"⟩).2
     (by decide)⟩

/-- Claim C7, counterexample: two identical `HTTP/0.9` requests do get
two equal independent responses, but neither satisfies the no-cache
header invariant, so the claim fails as stated. -/
theorem C7_counterexample :
    serve_requests fs0 [⟨"/x", "HTTP/0.9"⟩, ⟨"/x", "HTTP/0.9"⟩] =
      [Except.ok ⟨404, [], body_404⟩, Except.ok ⟨404, [], body_404⟩] ∧
    headerValues ⟨404, ([] : List Header), body_404⟩ "Cache-Control" = [] ∧
    (([] : List String) ≠ ["no-cache, no-store, must-revalidate"]) :=
  ⟨rfl, rfl, by decide⟩

/-- Claim C8: startup binds `0.0.0.0` (all interfaces) at fixed port
`5000`, serves from the current working directory, and the resulting
configuration is independent of command-line arguments and the
environment. -/
theorem C8_fixed_binding_no_configuration :
    ∀ (cwd : String) (argv1 argv2 : List String)
      (env1 env2 : List (String × String)),
      startup_config cwd argv1 env1 = startup_config cwd argv2 env2 ∧
      (startup_config cwd argv1 env1).host = "0.0.0.0" ∧
      (startup_config cwd argv1 env1).port = 5000 ∧
      (startup_config cwd argv1 env1).rootDir = cwd :=
  fun cwd a1 a2 e1 e2 => ⟨rfl, rfl, rfl, rfl⟩

/-- Claim C9, amended: for every request with a header block (version
other than `HTTP/0.9`), the `NoCacheHandler` response is identical to
the unmodified base handler response except that exactly one
`Cache-Control: no-cache, no-store, must-revalidate` field is appended
as the last header of the header block; status line, body, and every
other header with its order are unchanged.  (For `HTTP/0.9` the two
responses are identical, with no header block at all.) -/
theorem C9_frame_exactly_one_appended_header
    (fs : FileSystem) (r : Request) (hv : r.version ≠ "HTTP/0.9") :
    ∃ a b, NoCacheHandler_handle fs r = Except.ok a ∧
      base_handle fs r = Except.ok b ∧
      a.status = b.status ∧ a.body = b.body ∧
      a.headers = b.headers ++ [cacheControlField] :=
  ⟨_, _, handle_ne09 fs r hv, base_handle_ne09 fs r hv, rfl, rfl, rfl⟩

/-- Claim C9, witness: the spec scenario request over `HTTP/1.0`. -/
theorem C9_frame_exactly_one_appended_header_witness :
    ("HTTP/1.0" : String) ≠ "HTTP/0.9" ∧
    (∃ a b,
      NoCacheHandler_handle fs0 ⟨"/index.html", "HTTP/1.0"⟩ = Except.ok a ∧
      base_handle fs0 ⟨"/index.html", "HTTP/1.0"⟩ = Except.ok b ∧
      a.status = b.status ∧ a.body = b.body ∧
      a.headers = b.headers ++ [cacheControlField]) :=
  ⟨by decide,
   C9_frame_exactly_one_appended_header fs0 ⟨"/index.html", "HTTP/1.0"⟩
     (by decide)⟩

/-- Claim C9, counterexample: for an `HTTP/0.9` request the override
response equals the base response with no appended field — the header
block is empty — so the claim fails as stated. -/
theorem C9_counterexample :
    NoCacheHandler_handle fs0 ⟨"/a", "HTTP/0.9"⟩ =
      Except.ok ⟨404, [], body_404⟩ ∧
    base_handle fs0 ⟨"/a", "HTTP/0.9"⟩ = Except.ok ⟨404, [], body_404⟩ ∧
    (([] : List Header) ≠ [] ++ [cacheControlField]) :=
  ⟨rfl, rfl, by decide⟩

/-- Claim C10: for an `HTTP/0.9` request the handler emits no header
block at all — in particular no `Cache-Control` field — while for every
other request version the response carries the injected field; the
every-response invariant holds exactly for the header-block-bearing
responses. -/
theorem C10_http09_emits_no_header_block (fs : FileSystem) (p : String) :
    NoCacheHandler_handle fs ⟨p, "HTTP/0.9"⟩ =
      Except.ok ⟨(resolve fs p).status, [], (resolve fs p).body⟩ ∧
    (∀ v, v ≠ "HTTP/0.9" → ∃ resp,
      NoCacheHandler_handle fs ⟨p, v⟩ = Except.ok resp ∧
      cacheControlField ∈ resp.headers) := by
  constructor
  · exact handle_09 fs ⟨p, "HTTP/0.9"⟩ rfl
  · intro v hv
    refine ⟨_, handle_ne09 fs ⟨p, v⟩ hv, ?_⟩
    simp

/-- Claim C10, witness: the spec scenario root, over `HTTP/0.9` and
over `HTTP/1.1`. -/
theorem C10_http09_emits_no_header_block_witness :
    NoCacheHandler_handle fs0 ⟨"/index.html", "HTTP/0.9"⟩ =
      Except.ok ⟨(resolve fs0 "/index.html").status, [],
        (resolve fs0 "/index.html").body⟩ ∧
    (∃ resp,
      NoCacheHandler_handle fs0 ⟨"/index.html", "HTTP/1.1"⟩ = Except.ok resp ∧
      cacheControlField ∈ resp.headers) :=
  ⟨(C10_http09_emits_no_header_block fs0 "/index.html").1,
   (C10_http09_emits_no_header_block fs0 "/index.html").2 "HTTP/1.1"
     (by decide)⟩
